import Mathlib

/-
  Verification of the session controller of the interview-practice app.

  The embedding models `src/components/Agent.tsx`:
  - the call-status state machine (CallStatus enum, handleCall, handleDisconnect,
    the vapi event subscriptions) and
  - the feedback-trigger useEffect (deps: messages, callStatus, ...),
  together with the feedback page `app/dashboard/interview/[id]/feedback/page.tsx`.

  External calls (supabase reads/writes, vapi.start/stop, createFeedback,
  router.push, console logging) are recorded in an effect trace; the outcomes
  of fallible external calls are inputs to the model (DBOutcome, fbSuccess).
-/

namespace Mocked

/-- Call lifecycle states, mirror of the CallStatus enum in Agent.tsx. -/
inductive CallStatus
  | INACTIVE
  | CONNECTING
  | ACTIVE
  | FINISHED
  deriving DecidableEq, Repr

/-- Mirror of the SavedMessage interface: one recorded transcript turn.
The role union "user" | "system" | "assistant" is kept as a string. -/
structure SavedMessage where
  role : String
  content : String
  deriving DecidableEq, Repr

/-- Mirror of an incoming vapi event-stream message, with the fields the
onMessage handler looks at. -/
structure Message where
  type : String
  transcriptType : String
  role : String
  transcript : String
  deriving DecidableEq, Repr

/-- One external side effect issued by the component, in issue order.
The arguments of vapi.start (workflow id or interviewer config, variable
values) are abstracted away since no claim mentions them; everything a
claim mentions is recorded. -/
inductive Eff
  | updateCredits (newCredits : Int)
  | fetchExperience
  | updateExperience (newExperience : Int)
  | vapiStart
  | vapiStop
  | createFeedbackCall (transcript : List SavedMessage)
  | push (route : String)
  | log (msg : String)
  deriving DecidableEq, Repr

/-- The component props the modelled logic reads, plus the outcome of the
createFeedback external call ("success && id" in handleGenerateFeedback). -/
structure AgentProps where
  type : String
  interviewId : String
  fbSuccess : Bool
  deriving DecidableEq, Repr

/-- Outcomes of the three supabase calls made by handleCall: the credits
update error flag, the experience fetch (none = fetch error, some v = row
fetched with experience v, which may itself be null), and the experience
update error flag. -/
structure DBOutcome where
  creditUpdateError : Bool
  expFetch : Option (Option Int)
  expUpdateError : Bool
  deriving DecidableEq, Repr

/-- The component state: callStatus, messages, lastMessage and credits
(the useState hooks the claims are about), plus the accumulated trace of
issued external effects. isSpeaking and isLoadingCredits are omitted: no
modelled handler reads them and they feed no claim. -/
structure AgentState where
  callStatus : CallStatus
  messages : List SavedMessage
  lastMessage : String
  credits : Option Int
  effects : List Eff
  deriving DecidableEq, Repr

/-- Route pushed on successful feedback generation:
/dashboard/interview/${interviewId}/feedback. -/
def feedbackRoute (interviewId : String) : String :=
  "/dashboard/interview/" ++ interviewId ++ "/feedback"

/-- Mirror of handleCall. Guard: credits === null || credits <= 0 returns at
once. Then, in code order: the credits update is issued with value
credits - 1; the experience row is fetched (return on fetch error); the
experience update is issued with (profileData?.experience ?? 0) + 20
(return on its error); only then is the error of the credits update
checked (return on error); finally local credits are decremented, the
status becomes CONNECTING and vapi.start is issued. -/
def handleCall (s : AgentState) (w : DBOutcome) : AgentState :=
  match s.credits with
  | none => s
  | some c =>
    if c ≤ 0 then s
    else
      let s1 : AgentState :=
        { s with effects := s.effects ++ [Eff.updateCredits (c - 1), Eff.fetchExperience] }
      match w.expFetch with
      | none =>
        { s1 with effects := s1.effects ++ [Eff.log "Failed to fetch latest experience:"] }
      | some expVal =>
        let newExperience : Int := expVal.getD 0 + 20
        let s2 : AgentState :=
          { s1 with effects := s1.effects ++ [Eff.updateExperience newExperience] }
        if w.expUpdateError then
          { s2 with effects := s2.effects ++ [Eff.log "Failed to update experience:"] }
        else if w.creditUpdateError then
          { s2 with effects := s2.effects ++ [Eff.log "Failed to decrement credits:"] }
        else
          { s2 with credits := some (c - 1),
                    callStatus := CallStatus.CONNECTING,
                    effects := s2.effects ++ [Eff.vapiStart] }

/-- Mirror of the onMessage vapi subscription: append the turn exactly when
the message is a final transcript. -/
def onMessage (prev : List SavedMessage) (m : Message) : List SavedMessage :=
  if m.type = "transcript" ∧ m.transcriptType = "final" then
    prev ++ [{ role := m.role, content := m.transcript }]
  else prev

/-- Mirror of the useEffect on [messages, callStatus, ...]: update
lastMessage from the last recorded turn if any; then, when the status is
FINISHED, either push /dashboard (type "generate") or run
handleGenerateFeedback — log, issue createFeedback, push the feedback
route unconditionally, and push again according to the createFeedback
outcome (feedback route on success, log + /dashboard on failure). -/
def finishedEffect (cfg : AgentProps) (s : AgentState) : AgentState :=
  let s1 : AgentState :=
    match s.messages.getLast? with
    | some m => { s with lastMessage := m.content }
    | none => s
  if s1.callStatus = CallStatus.FINISHED then
    if cfg.type = "generate" then
      { s1 with effects := s1.effects ++ [Eff.push "/dashboard"] }
    else
      { s1 with effects := s1.effects ++
          [Eff.log "handleGenerateFeedback",
           Eff.createFeedbackCall s1.messages,
           Eff.push (feedbackRoute cfg.interviewId)] ++
          (if cfg.fbSuccess then [Eff.push (feedbackRoute cfg.interviewId)]
           else [Eff.log "Error saving feedback", Eff.push "/dashboard"]) }
  else s1

/-- The events the controller reacts to: the vapi call-start / call-end /
message subscriptions, a press of the Call button (carrying the supabase
outcomes that run resolves against), and the End button. The speech-start,
speech-end and error subscriptions only toggle isSpeaking or log and touch
no modelled state, so they are omitted. -/
inductive Ev
  | callStartEv
  | callEndEv
  | messageEv (m : Message)
  | pressCall (w : DBOutcome)
  | disconnect
  deriving DecidableEq, Repr

/-- The event handlers: onCallStart sets ACTIVE, onCallEnd sets FINISHED,
onMessage appends final transcript turns, the Call button runs handleCall,
handleDisconnect sets FINISHED and issues vapi.stop. -/
def handler (s : AgentState) (e : Ev) : AgentState :=
  match e with
  | Ev.callStartEv => { s with callStatus := CallStatus.ACTIVE }
  | Ev.callEndEv => { s with callStatus := CallStatus.FINISHED }
  | Ev.messageEv m => { s with messages := onMessage s.messages m }
  | Ev.pressCall w => handleCall s w
  | Ev.disconnect =>
      { s with callStatus := CallStatus.FINISHED, effects := s.effects ++ [Eff.vapiStop] }

/-- One controller step: run the event handler, then re-run the feedback
useEffect exactly when one of its state dependencies (messages,
callStatus) changed, following React effect semantics. -/
def step (cfg : AgentProps) (s : AgentState) (e : Ev) : AgentState :=
  let s' := handler s e
  if s'.messages ≠ s.messages ∨ s'.callStatus ≠ s.callStatus then finishedEffect cfg s'
  else s'

/-- Initial component state: status INACTIVE, no messages, credits as
fetched by the mount-time credits effect (none when the fetch failed or
the column is null). -/
def initState (credits0 : Option Int) : AgentState :=
  { callStatus := CallStatus.INACTIVE, messages := [], lastMessage := ""
    credits := credits0, effects := [] }

/-- Run the controller over a sequence of events. -/
def run (cfg : AgentProps) (s : AgentState) (es : List Ev) : AgentState :=
  es.foldl (step cfg) s

/-- True on the effect recording a createFeedback attempt. -/
def isFeedbackCall : Eff → Bool
  | Eff.createFeedbackCall _ => true
  | _ => false

/-- Number of createFeedback attempts recorded in the trace. -/
def feedbackAttempts (s : AgentState) : Nat :=
  (s.effects.filter isFeedbackCall).length

/-- True on the effect recording a credits write. -/
def isCreditWrite : Eff → Bool
  | Eff.updateCredits _ => true
  | _ => false

/-- True on the effect recording an experience write. -/
def isExpWrite : Eff → Bool
  | Eff.updateExperience _ => true
  | _ => false

/-- handleCall never changes the recorded messages. -/
theorem handleCall_messages (s : AgentState) (w : DBOutcome) :
    (handleCall s w).messages = s.messages := by
  unfold handleCall
  cases s.credits <;> simp
  split
  · rfl
  · cases w.expFetch <;> simp
    split
    · rfl
    · split <;> rfl

/-- handleCall either leaves the status alone (any abort path) or sets it
to CONNECTING (the full-success path). -/
theorem handleCall_callStatus (s : AgentState) (w : DBOutcome) :
    (handleCall s w).callStatus = s.callStatus ∨
      (handleCall s w).callStatus = CallStatus.CONNECTING := by
  unfold handleCall
  cases s.credits <;> simp
  split
  · exact Or.inl rfl
  · cases w.expFetch <;> simp
    split
    · exact Or.inl rfl
    · split
      · exact Or.inl rfl
      · exact Or.inr rfl

/-- finishedEffect changes neither the status nor the messages nor the
credits. -/
theorem finishedEffect_callStatus (cfg : AgentProps) (s : AgentState) :
    (finishedEffect cfg s).callStatus = s.callStatus := by
  unfold finishedEffect
  cases s.messages.getLast? <;> simp <;> split <;> try split
  all_goals rfl

/-- finishedEffect preserves the messages list. -/
theorem finishedEffect_messages (cfg : AgentProps) (s : AgentState) :
    (finishedEffect cfg s).messages = s.messages := by
  unfold finishedEffect
  cases s.messages.getLast? <;> simp <;> split <;> try split
  all_goals rfl

/-- finishedEffect preserves the credits. -/
theorem finishedEffect_credits (cfg : AgentProps) (s : AgentState) :
    (finishedEffect cfg s).credits = s.credits := by
  unfold finishedEffect
  cases s.messages.getLast? <;> simp <;> split <;> try split
  all_goals rfl

/-- a step has the same status as its bare handler: the feedback effect
never writes callStatus. -/
theorem step_callStatus (cfg : AgentProps) (s : AgentState) (e : Ev) :
    (step cfg s e).callStatus = (handler s e).callStatus := by
  simp only [step]
  split
  · exact finishedEffect_callStatus cfg (handler s e)
  · rfl

/-- C1: for a null or non-positive credit balance, handleCall returns
without issuing any external effect and without touching any state, both
as the bare handler and as a full controller step (so the status stays
INACTIVE when it was INACTIVE). -/
theorem c1_no_credits_no_mutation (cfg : AgentProps) (s : AgentState) (w : DBOutcome)
    (h : s.credits = none ∨ ∃ c : Int, s.credits = some c ∧ c ≤ 0) :
    handleCall s w = s ∧ step cfg s (Ev.pressCall w) = s := by
  have hcall : handleCall s w = s := by
    rcases h with h | ⟨c, hc, hle⟩
    · simp [handleCall, h]
    · simp [handleCall, hc, hle]
  refine ⟨hcall, ?_⟩
  simp [step, handler, hcall]

/-- Witness for C1 at a concrete zero-credit state. -/
theorem c1_no_credits_no_mutation_witness :
    handleCall (initState (some 0)) ⟨false, some (some 7), false⟩ = initState (some 0) :=
  (c1_no_credits_no_mutation ⟨"interview", "i1", true⟩ (initState (some 0))
    ⟨false, some (some 7), false⟩ (Or.inr ⟨0, rfl, le_refl 0⟩)).1

/-- C2: on a session start where every external call succeeds (credits
balance previously read as c > 0, experience freshly fetched as e), the
component issues exactly the credits write with value c - 1, the
experience fetch, the experience write with value e + 20 and the voice
call start, in that order; among the newly issued effects the credits
write and the experience write each appear exactly once, with exactly
those values; locally credits become c - 1 and the status CONNECTING. -/
theorem c2_success_exact_writes (s : AgentState) (w : DBOutcome) (c e : Int)
    (hc : s.credits = some c) (hpos : 0 < c)
    (hcu : w.creditUpdateError = false)
    (hf : w.expFetch = some (some e))
    (heu : w.expUpdateError = false) :
    handleCall s w =
      { s with credits := some (c - 1), callStatus := CallStatus.CONNECTING,
               effects := s.effects ++
                 [Eff.updateCredits (c - 1), Eff.fetchExperience,
                  Eff.updateExperience (e + 20), Eff.vapiStart] } ∧
    ((handleCall s w).effects.drop s.effects.length).filter isCreditWrite
      = [Eff.updateCredits (c - 1)] ∧
    ((handleCall s w).effects.drop s.effects.length).filter isExpWrite
      = [Eff.updateExperience (e + 20)] := by
  have hne : ¬ c ≤ 0 := not_le.mpr hpos
  have hmain : handleCall s w =
      { s with credits := some (c - 1), callStatus := CallStatus.CONNECTING,
               effects := s.effects ++
                 [Eff.updateCredits (c - 1), Eff.fetchExperience,
                  Eff.updateExperience (e + 20), Eff.vapiStart] } := by
    simp [handleCall, hc, hne, hf, heu, hcu]
  refine ⟨hmain, ?_, ?_⟩ <;>
    simp [hmain, List.drop_left, isCreditWrite, isExpWrite, List.filter]

/-- Witness for C2: balance 5, fetched experience 40; writes are 4 and 60. -/
theorem c2_success_exact_writes_witness :
    handleCall (initState (some 5)) ⟨false, some (some 40), false⟩ =
      { callStatus := CallStatus.CONNECTING, messages := [], lastMessage := ""
        credits := some 4,
        effects := [Eff.updateCredits 4, Eff.fetchExperience,
                    Eff.updateExperience 60, Eff.vapiStart] } :=
  (c2_success_exact_writes (initState (some 5)) ⟨false, some (some 40), false⟩ 5 40
    rfl (by norm_num) rfl rfl rfl).1

/-- C3: on a session start with positive balance where the experience row
is fetched but one of the two writes fails, handleCall aborts: the status
is unchanged (never CONNECTING when it was not), the local credits are
unchanged, no voice call start is issued — yet the trace still ends with
both writes already issued (the credits write first, unconditionally)
followed only by the error log, with no compensating write. -/
theorem c3_update_failure_aborts_without_rollback (s : AgentState) (w : DBOutcome)
    (c : Int) (ev : Option Int)
    (hc : s.credits = some c) (hpos : 0 < c)
    (hf : w.expFetch = some ev)
    (hfail : w.creditUpdateError = true ∨ w.expUpdateError = true) :
    (handleCall s w).callStatus = s.callStatus ∧
    (handleCall s w).credits = s.credits ∧
    (handleCall s w).effects = s.effects ++
      [Eff.updateCredits (c - 1), Eff.fetchExperience,
       Eff.updateExperience (ev.getD 0 + 20)] ++
      (if w.expUpdateError then [Eff.log "Failed to update experience:"]
       else [Eff.log "Failed to decrement credits:"]) ∧
    Eff.vapiStart ∉ (handleCall s w).effects.drop s.effects.length := by
  have hne : ¬ c ≤ 0 := not_le.mpr hpos
  have hmain : handleCall s w =
      { s with effects := s.effects ++
          [Eff.updateCredits (c - 1), Eff.fetchExperience,
           Eff.updateExperience (ev.getD 0 + 20)] ++
          (if w.expUpdateError then [Eff.log "Failed to update experience:"]
           else [Eff.log "Failed to decrement credits:"]) } := by
    rcases hfail with hcu | heu
    · by_cases heu : w.expUpdateError = true
      · simp [handleCall, hc, hne, hf, heu]
      · simp only [Bool.not_eq_true] at heu
        simp [handleCall, hc, hne, hf, heu, hcu]
    · simp [handleCall, hc, hne, hf, heu]
  refine ⟨by simp [hmain], by simp [hmain], by simp [hmain, List.append_assoc], ?_⟩
  rw [hmain]
  simp only [List.append_assoc]
  rw [List.drop_left]
  by_cases heu : w.expUpdateError = true <;> simp [heu]

/-- Witness for C3: balance 2, fetched experience 3, experience update
fails; the trace keeps the issued writes 1 and 23 and the status stays
INACTIVE. -/
theorem c3_update_failure_aborts_without_rollback_witness :
    (handleCall (initState (some 2)) ⟨false, some (some 3), true⟩).callStatus
      = CallStatus.INACTIVE ∧
    (handleCall (initState (some 2)) ⟨false, some (some 3), true⟩).effects
      = [Eff.updateCredits 1, Eff.fetchExperience, Eff.updateExperience 23,
         Eff.log "Failed to update experience:"] := by
  have h := c3_update_failure_aborts_without_rollback (initState (some 2))
    ⟨false, some (some 3), true⟩ 2 (some 3) rfl (by norm_num) rfl (Or.inr rfl)
  exact ⟨h.1, by simpa using h.2.2.1⟩

/-- The transcript turn recorded for an event: a final transcript message
yields its turn, every other event yields nothing. -/
def finalTurn? : Ev → Option SavedMessage
  | Ev.messageEv m =>
      if m.type = "transcript" ∧ m.transcriptType = "final" then
        some { role := m.role, content := m.transcript }
      else none
  | _ => none

/-- the bare handler appends exactly the turn of the event, if any. -/
theorem handler_messages (s : AgentState) (e : Ev) :
    (handler s e).messages = s.messages ++ (finalTurn? e).toList := by
  cases e with
  | callStartEv => simp [handler, finalTurn?]
  | callEndEv => simp [handler, finalTurn?]
  | disconnect => simp [handler, finalTurn?]
  | pressCall w => simp [handler, finalTurn?, handleCall_messages]
  | messageEv m =>
      by_cases h : m.type = "transcript" ∧ m.transcriptType = "final" <;>
        simp [handler, onMessage, finalTurn?, h]

/-- a full step appends exactly the turn of the event, if any. -/
theorem step_messages (cfg : AgentProps) (s : AgentState) (e : Ev) :
    (step cfg s e).messages = s.messages ++ (finalTurn? e).toList := by
  simp only [step]
  split
  · rw [finishedEffect_messages]
    exact handler_messages s e
  · exact handler_messages s e

/-- A concrete final transcript message, used by concrete evaluations. -/
def finalMsg : Message :=
  { type := "transcript", transcriptType := "final", role := "user", transcript := "hello" }

/-- C8: over any event sequence, the recorded transcript is the previous
transcript followed by the final transcript turns of the events in exact
arrival order — append-only, no reordering, no deduplication (filterMap
keeps duplicates and is order preserving). -/
theorem c8_transcript_in_arrival_order (cfg : AgentProps) (s : AgentState) (es : List Ev) :
    (run cfg s es).messages = s.messages ++ es.filterMap finalTurn? := by
  induction es generalizing s with
  | nil => simp [run]
  | cons e es ih =>
    show (run cfg (step cfg s e) es).messages = _
    rw [ih (step cfg s e), step_messages]
    cases h : finalTurn? e <;> simp [List.filterMap_cons, h]

/-- C10: a step on an incoming message appends the turn exactly when the
message has type "transcript" and transcriptType "final", and leaves the
transcript unchanged on any other message. -/
theorem c10_final_transcript_appends_iff (cfg : AgentProps) (s : AgentState) (m : Message) :
    (m.type = "transcript" ∧ m.transcriptType = "final" →
      (step cfg s (Ev.messageEv m)).messages
        = s.messages ++ [{ role := m.role, content := m.transcript }]) ∧
    (¬ (m.type = "transcript" ∧ m.transcriptType = "final") →
      (step cfg s (Ev.messageEv m)).messages = s.messages) := by
  constructor <;> intro h <;> rw [step_messages] <;> simp [finalTurn?, h]

/-- Witness for C10: a final transcript message is appended, a partial one
is not. -/
theorem c10_final_transcript_appends_iff_witness :
    (step ⟨"interview", "i1", true⟩ (initState (some 3)) (Ev.messageEv finalMsg)).messages
      = [{ role := "user", content := "hello" }] := by
  have h := (c10_final_transcript_appends_iff ⟨"interview", "i1", true⟩
    (initState (some 3)) finalMsg).1 ⟨rfl, rfl⟩
  simpa using h

/-- handleCall never issues a createFeedback attempt. -/
theorem handleCall_feedbackAttempts (s : AgentState) (w : DBOutcome) :
    feedbackAttempts (handleCall s w) = feedbackAttempts s := by
  unfold handleCall
  cases s.credits <;> simp
  split
  · rfl
  · cases w.expFetch <;>
      simp [feedbackAttempts, List.filter_append, isFeedbackCall]
    split
    · simp [feedbackAttempts, List.filter_append, isFeedbackCall]
    · split <;> simp [feedbackAttempts, List.filter_append, isFeedbackCall]

/-- no bare handler issues a createFeedback attempt. -/
theorem handler_feedbackAttempts (s : AgentState) (e : Ev) :
    feedbackAttempts (handler s e) = feedbackAttempts s := by
  cases e with
  | callStartEv => rfl
  | callEndEv => rfl
  | messageEv m => rfl
  | pressCall w => exact handleCall_feedbackAttempts s w
  | disconnect => simp [handler, feedbackAttempts, List.filter_append, isFeedbackCall]

/-- with session type "generate" the feedback effect only navigates and
never issues a createFeedback attempt. -/
theorem finishedEffect_feedbackAttempts_generate (cfg : AgentProps)
    (hty : cfg.type = "generate") (s : AgentState) :
    feedbackAttempts (finishedEffect cfg s) = feedbackAttempts s := by
  unfold finishedEffect
  cases s.messages.getLast? <;> simp [hty] <;> split <;>
    simp [feedbackAttempts, List.filter_append, isFeedbackCall]

/-- with session type "generate" no step issues a createFeedback attempt. -/
theorem step_feedbackAttempts_generate (cfg : AgentProps)
    (hty : cfg.type = "generate") (s : AgentState) (e : Ev) :
    feedbackAttempts (step cfg s e) = feedbackAttempts s := by
  simp only [step]
  split
  · rw [finishedEffect_feedbackAttempts_generate cfg hty, handler_feedbackAttempts]
  · exact handler_feedbackAttempts s e

/-- with session type "generate" whole runs issue no createFeedback. -/
theorem run_feedbackAttempts_generate (cfg : AgentProps)
    (hty : cfg.type = "generate") (s : AgentState) (es : List Ev) :
    feedbackAttempts (run cfg s es) = feedbackAttempts s := by
  induction es generalizing s with
  | nil => rfl
  | cons e es ih =>
    show feedbackAttempts (run cfg (step cfg s e) es) = _
    rw [ih (step cfg s e), step_feedbackAttempts_generate cfg hty]

/-- an event that moves a non-FINISHED status to FINISHED must be the
call-end event or the disconnect button; the step then runs the feedback
effect on the handler result, whose messages are unchanged and whose
effects extend the previous ones by at most the vapi.stop call. -/
theorem transition_to_finished (cfg : AgentProps) (s : AgentState) (e : Ev)
    (hpre : s.callStatus ≠ CallStatus.FINISHED)
    (hpost : (handler s e).callStatus = CallStatus.FINISHED) :
    step cfg s e = finishedEffect cfg (handler s e) ∧
    (handler s e).messages = s.messages ∧
    (handler s e).callStatus = CallStatus.FINISHED ∧
    ((handler s e).effects = s.effects ∨
      (handler s e).effects = s.effects ++ [Eff.vapiStop]) := by
  have hne : CallStatus.FINISHED ≠ s.callStatus := fun h => hpre h.symm
  cases e with
  | callStartEv => simp [handler] at hpost
  | messageEv m =>
      exfalso
      exact hpre (by simpa [handler] using hpost)
  | pressCall w =>
      exfalso
      rcases handleCall_callStatus s w with h | h
      · rw [handler] at hpost
        exact hpre (h ▸ hpost)
      · rw [handler] at hpost
        rw [h] at hpost
        cases hpost
  | callEndEv =>
      refine ⟨?_, rfl, rfl, Or.inl rfl⟩
      simp [step, handler, hne]
  | disconnect =>
      refine ⟨?_, rfl, rfl, Or.inr rfl⟩
      simp [step, handler, hne]

/-- effect trace of the feedback effect in a FINISHED, non-"generate"
state: one log, one createFeedback attempt with the recorded transcript,
the unconditional push of the feedback route, then the outcome push. -/
theorem finishedEffect_finished_nongenerate (cfg : AgentProps) (s : AgentState)
    (hty : ¬ cfg.type = "generate") (hst : s.callStatus = CallStatus.FINISHED) :
    (finishedEffect cfg s).effects = s.effects ++
      [Eff.log "handleGenerateFeedback",
       Eff.createFeedbackCall s.messages,
       Eff.push (feedbackRoute cfg.interviewId)] ++
      (if cfg.fbSuccess then [Eff.push (feedbackRoute cfg.interviewId)]
       else [Eff.log "Error saving feedback", Eff.push "/dashboard"]) := by
  unfold finishedEffect
  cases s.messages.getLast? <;> simp [hst, hty]

/-- effect trace of the feedback effect in a FINISHED "generate" state:
only the push to /dashboard. -/
theorem finishedEffect_finished_generate (cfg : AgentProps) (s : AgentState)
    (hty : cfg.type = "generate") (hst : s.callStatus = CallStatus.FINISHED) :
    (finishedEffect cfg s).effects = s.effects ++ [Eff.push "/dashboard"] := by
  unfold finishedEffect
  cases s.messages.getLast? <;> simp [hst, hty]

/-- C4 counterexample: in a non-"generate" session that becomes FINISHED,
a final transcript message delivered after the call-end event re-runs the
feedback useEffect (messages is one of its dependencies), so two
createFeedback attempts are issued — the claim's "never more than one"
fails. -/
theorem c4_counterexample_double_submission :
    (⟨"interview", "i1", true⟩ : AgentProps).type ≠ "generate" ∧
    (run ⟨"interview", "i1", true⟩ (initState (some 3))
        [Ev.callEndEv, Ev.messageEv finalMsg]).callStatus = CallStatus.FINISHED ∧
    feedbackAttempts (run ⟨"interview", "i1", true⟩ (initState (some 3))
        [Ev.callEndEv, Ev.messageEv finalMsg]) = 2 := by
  refine ⟨by decide, rfl, rfl⟩

/-- C4 amended: each event that moves a non-"generate" session from a
non-FINISHED status to FINISHED issues exactly one additional
createFeedback attempt — never zero — but events that re-run the effect
while the status stays FINISHED (a late final transcript) issue further
attempts, so a whole session can attempt more than once. -/
theorem c4_one_submission_per_finish_transition (cfg : AgentProps) (s : AgentState) (e : Ev)
    (hty : cfg.type ≠ "generate")
    (hpre : s.callStatus ≠ CallStatus.FINISHED)
    (hpost : (handler s e).callStatus = CallStatus.FINISHED) :
    feedbackAttempts (step cfg s e) = feedbackAttempts s + 1 := by
  obtain ⟨hstep, hmsg, hst, heff⟩ := transition_to_finished cfg s e hpre hpost
  rw [hstep]
  unfold feedbackAttempts
  rw [finishedEffect_finished_nongenerate cfg (handler s e) hty hst]
  rcases heff with h | h <;> rw [h] <;> cases hfb : cfg.fbSuccess <;>
    simp [hfb, List.filter_append, isFeedbackCall]

/-- Witness for the amended C4: the call-end event on an ACTIVE session
issues the single attempt. -/
theorem c4_one_submission_per_finish_transition_witness :
    feedbackAttempts (step ⟨"interview", "i1", true⟩
      { callStatus := CallStatus.ACTIVE, messages := [], lastMessage := ""
        credits := some 2, effects := [] } Ev.callEndEv) =
    feedbackAttempts
      { callStatus := CallStatus.ACTIVE, messages := [], lastMessage := ""
        credits := some 2, effects := [] } + 1 :=
  c4_one_submission_per_finish_transition ⟨"interview", "i1", true⟩
    { callStatus := CallStatus.ACTIVE, messages := [], lastMessage := ""
      credits := some 2, effects := [] } Ev.callEndEv
    (by decide) (by decide) rfl

/-- C5: in a session of type "generate", no run of the controller ever
issues a createFeedback attempt, and the event that moves the session
into FINISHED pushes the /dashboard route instead. -/
theorem c5_generate_never_submits_feedback (cfg : AgentProps)
    (hty : cfg.type = "generate") :
    (∀ (c0 : Option Int) (es : List Ev),
      feedbackAttempts (run cfg (initState c0) es) = 0) ∧
    (∀ (s : AgentState) (e : Ev), s.callStatus ≠ CallStatus.FINISHED →
      (handler s e).callStatus = CallStatus.FINISHED →
      Eff.push "/dashboard" ∈ (step cfg s e).effects) := by
  constructor
  · intro c0 es
    rw [run_feedbackAttempts_generate cfg hty]
    rfl
  · intro s e hpre hpost
    obtain ⟨hstep, hmsg, hst, heff⟩ := transition_to_finished cfg s e hpre hpost
    rw [hstep, finishedEffect_finished_generate cfg (handler s e) hty hst]
    simp

/-- Witness for C5 at a concrete "generate" session: a full session run
issues no createFeedback attempt. -/
theorem c5_generate_never_submits_feedback_witness :
    feedbackAttempts (run ⟨"generate", "i1", true⟩ (initState (some 3))
      [Ev.pressCall ⟨false, some (some 0), false⟩, Ev.callStartEv,
       Ev.messageEv finalMsg, Ev.callEndEv]) = 0 :=
  (c5_generate_never_submits_feedback ⟨"generate", "i1", true⟩ rfl).1 (some 3)
    [Ev.pressCall ⟨false, some (some 0), false⟩, Ev.callStartEv,
     Ev.messageEv finalMsg, Ev.callEndEv]

/-- C6: when a non-"generate" session moves into FINISHED, the feedback
route is pushed whatever the createFeedback outcome; when the outcome is
failure, the error is logged and /dashboard is pushed as well; and
exactly one createFeedback attempt is issued by that step — no retry. -/
theorem c6_finished_navigates_regardless (cfg : AgentProps) (s : AgentState) (e : Ev)
    (hty : cfg.type ≠ "generate")
    (hpre : s.callStatus ≠ CallStatus.FINISHED)
    (hpost : (handler s e).callStatus = CallStatus.FINISHED) :
    Eff.push (feedbackRoute cfg.interviewId) ∈ (step cfg s e).effects ∧
    (cfg.fbSuccess = false →
      Eff.log "Error saving feedback" ∈ (step cfg s e).effects ∧
      Eff.push "/dashboard" ∈ (step cfg s e).effects) ∧
    feedbackAttempts (step cfg s e) = feedbackAttempts s + 1 := by
  obtain ⟨hstep, hmsg, hst, heff⟩ := transition_to_finished cfg s e hpre hpost
  have htr := finishedEffect_finished_nongenerate cfg (handler s e) hty hst
  rw [hstep]
  refine ⟨?_, ?_, ?_⟩
  · rw [htr]; simp
  · intro hfb
    rw [htr]
    simp [hfb]
  · unfold feedbackAttempts
    rw [htr]
    rcases heff with h | h <;> rw [h] <;> cases hfb : cfg.fbSuccess <;>
      simp [hfb, List.filter_append, isFeedbackCall]

/-- Witness for C6: call-end on an ACTIVE session with failing
createFeedback pushes the feedback route, logs, pushes /dashboard, and
attempts feedback exactly once. -/
theorem c6_finished_navigates_regardless_witness :
    Eff.push (feedbackRoute "i1") ∈ (step ⟨"interview", "i1", false⟩
      { callStatus := CallStatus.ACTIVE, messages := [], lastMessage := ""
        credits := some 2, effects := [] } Ev.callEndEv).effects ∧
    Eff.log "Error saving feedback" ∈ (step ⟨"interview", "i1", false⟩
      { callStatus := CallStatus.ACTIVE, messages := [], lastMessage := ""
        credits := some 2, effects := [] } Ev.callEndEv).effects ∧
    Eff.push "/dashboard" ∈ (step ⟨"interview", "i1", false⟩
      { callStatus := CallStatus.ACTIVE, messages := [], lastMessage := ""
        credits := some 2, effects := [] } Ev.callEndEv).effects := by
  have h := c6_finished_navigates_regardless ⟨"interview", "i1", false⟩
    { callStatus := CallStatus.ACTIVE, messages := [], lastMessage := ""
      credits := some 2, effects := [] } Ev.callEndEv
    (by decide) (by decide) rfl
  exact ⟨h.1, (h.2.1 rfl).1, (h.2.1 rfl).2⟩

/-- handleCall results in CONNECTING only when it was already CONNECTING
or the whole success path was taken: positive balance, experience row
fetched, both writes error-free. -/
theorem handleCall_connecting (s : AgentState) (w : DBOutcome)
    (h : (handleCall s w).callStatus = CallStatus.CONNECTING) :
    s.callStatus = CallStatus.CONNECTING ∨
    ∃ c : Int, s.credits = some c ∧ 0 < c ∧
      w.creditUpdateError = false ∧ w.expUpdateError = false ∧
      ∃ ev : Option Int, w.expFetch = some ev := by
  cases hc : s.credits with
  | none => left; simpa [handleCall, hc] using h
  | some c =>
    by_cases hle : c ≤ 0
    · left; simpa [handleCall, hc, hle] using h
    · cases hf : w.expFetch with
      | none => left; simpa [handleCall, hc, hle, hf] using h
      | some ev =>
        cases heu : w.expUpdateError with
        | true => left; simpa [handleCall, hc, hle, hf, heu] using h
        | false =>
          cases hcu : w.creditUpdateError with
          | true => left; simpa [handleCall, hc, hle, hf, heu, hcu] using h
          | false => exact Or.inr ⟨c, rfl, not_le.mp hle, rfl, rfl, ev, rfl⟩

/-- C7: the status machine. A step lands on CONNECTING only from a state
already CONNECTING or through a Call press with positive read balance,
a fetched experience row and both store updates error-free; the call-start
event always yields ACTIVE (in particular from CONNECTING); the call-end
event and the disconnect button always yield FINISHED; the initial status
is INACTIVE. -/
theorem c7_status_machine (cfg : AgentProps) (s : AgentState) (e : Ev) :
    ((step cfg s e).callStatus = CallStatus.CONNECTING →
      s.callStatus = CallStatus.CONNECTING ∨
      ∃ w : DBOutcome, e = Ev.pressCall w ∧
        ∃ c : Int, s.credits = some c ∧ 0 < c ∧
          w.creditUpdateError = false ∧ w.expUpdateError = false ∧
          ∃ ev : Option Int, w.expFetch = some ev) ∧
    (step cfg s Ev.callStartEv).callStatus = CallStatus.ACTIVE ∧
    (step cfg s Ev.callEndEv).callStatus = CallStatus.FINISHED ∧
    (step cfg s Ev.disconnect).callStatus = CallStatus.FINISHED ∧
    (initState s.credits).callStatus = CallStatus.INACTIVE := by
  refine ⟨?_, by rw [step_callStatus]; rfl, by rw [step_callStatus]; rfl,
    by rw [step_callStatus]; rfl, rfl⟩
  rw [step_callStatus]
  cases e with
  | callStartEv => intro h; cases h
  | callEndEv => intro h; cases h
  | disconnect => intro h; cases h
  | messageEv m => intro h; exact Or.inl h
  | pressCall w =>
      intro h
      rcases handleCall_connecting s w h with h1 | h1
      · exact Or.inl h1
      · exact Or.inr ⟨w, rfl, h1⟩

/-- Witness for C7: a successful Call press from the initial state lands
on CONNECTING and the theorem certifies the success conditions; call-end
from the same state lands on FINISHED. -/
theorem c7_status_machine_witness :
    ((initState (some 1)).callStatus = CallStatus.CONNECTING ∨
      ∃ w : DBOutcome, Ev.pressCall ⟨false, some (some 0), false⟩ = Ev.pressCall w ∧
        ∃ c : Int, (initState (some 1)).credits = some c ∧ 0 < c ∧
          w.creditUpdateError = false ∧ w.expUpdateError = false ∧
          ∃ ev : Option Int, w.expFetch = some ev) ∧
    (step ⟨"interview", "i1", true⟩ (initState (some 1)) Ev.callEndEv).callStatus
      = CallStatus.FINISHED :=
  ⟨(c7_status_machine ⟨"interview", "i1", true⟩ (initState (some 1))
      (Ev.pressCall ⟨false, some (some 0), false⟩)).1 (by decide),
   (c7_status_machine ⟨"interview", "i1", true⟩ (initState (some 1))
      Ev.callEndEv).2.2.1⟩

/-- A stored interview record. Its contents are opaque to the page logic;
only existence and identity matter to the claim. -/
structure Interview where
  payload : String
  deriving DecidableEq, Repr

/-- Result of the feedback page: a server-side redirect, or a render of
the FeedbackClient with the interview id and fetched record. -/
inductive PageResult
  | redirectTo (route : String)
  | render (interviewId : String) (interview : Interview)
  deriving DecidableEq, Repr

/-- Modelled from the spec: getInterviewById is imported from
lib/actions/general.action, which is not among the sources; per the spec
it is a server-side fetch by interview identifier that yields the stored
record when one exists. Modelled as lookup in an association list
standing for the store. -/
def getInterviewById (store : List (String × Interview)) (id : String) : Option Interview :=
  (store.find? (fun p => p.1 == id)).map (fun p => p.2)

/-- Mirror of the FeedbackPage server component: fetch the interview by
id, redirect to /dashboard when there is none, otherwise render the
FeedbackClient with the id and the record. -/
def FeedbackPage (store : List (String × Interview)) (id : String) : PageResult :=
  match getInterviewById store id with
  | none => PageResult.redirectTo "/dashboard"
  | some interview => PageResult.render id interview

/-- C9: when no interview record exists for the identifier, the feedback
page redirects to /dashboard and renders nothing; when a record exists,
it renders it. -/
theorem c9_feedback_page_redirects_or_renders
    (store : List (String × Interview)) (id : String) :
    (getInterviewById store id = none →
      FeedbackPage store id = PageResult.redirectTo "/dashboard" ∧
      ∀ (i : String) (iv : Interview), FeedbackPage store id ≠ PageResult.render i iv) ∧
    (∀ iv : Interview, getInterviewById store id = some iv →
      FeedbackPage store id = PageResult.render id iv) := by
  refine ⟨fun h => ⟨by simp [FeedbackPage, h], fun i iv => by simp [FeedbackPage, h]⟩, ?_⟩
  intro iv h
  simp [FeedbackPage, h]

/-- Witness for C9: the empty store redirects, a store holding the record
renders it. -/
theorem c9_feedback_page_redirects_or_renders_witness :
    FeedbackPage [] "i1" = PageResult.redirectTo "/dashboard" ∧
    FeedbackPage [("i1", ⟨"fb"⟩)] "i1" = PageResult.render "i1" ⟨"fb"⟩ :=
  ⟨((c9_feedback_page_redirects_or_renders [] "i1").1 rfl).1,
   (c9_feedback_page_redirects_or_renders [("i1", ⟨"fb"⟩)] "i1").2 ⟨"fb"⟩ rfl⟩

end Mocked
